import Mathlib

/-!
# Verification of `seller_sync.py`

A shallow embedding of the seller-sync tool (`src/seller_sync.py`): a
spreadsheet splitter that partitions a consolidated workbook into one
output file per merchant and optionally emails each file.

Modelling conventions:
* A cell value is `Val` (`vnone` models Python `None`, i.e. an empty
  openpyxl cell; `vint` and `vstr` model the value types the claims need).
* A pandas `DataFrame` is `DF`: a list of column labels and a list of rows
  (each row a list of values, positionally aligned with the columns).
* An openpyxl worksheet is a total function `Nat → Nat → Val` on 1-based
  (row, column) coordinates; a workbook is `String → Worksheet`.
* The dict of imported sheets (`self.dfs`) is an association list
  `List (String × DF)`; a missing key is a `KeyError`.
* Python exceptions are modelled with `Except String` for pure helpers,
  and for the stateful `split_sellers` loop as a result pair
  `State × Option String` (the state at the point the exception was
  raised, plus the error, mirroring that `self`'s fields survive a raise).
* `template_file.save(path)` followed by re-loading the saved file is
  modelled as recording a write `(path, grid)` and keeping the same grid
  as the in-memory template (a save/load round-trip preserves cell
  values).
-/

/-- A spreadsheet / dataframe cell value. `vnone` is Python `None`. -/
inductive Val where
  | vnone : Val
  | vint (n : Int) : Val
  | vstr (s : String) : Val
deriving DecidableEq, Repr

/-- A pandas DataFrame: column labels plus data rows (positionally aligned). -/
structure DF where
  cols : List Val
  rows : List (List Val)
deriving DecidableEq, Repr

/-- An openpyxl worksheet: total map from 1-based (row, column) to cell value. -/
def Worksheet : Type := Nat → Nat → Val

/-- An openpyxl workbook: map from sheet name to worksheet. -/
def Workbook : Type := String → Worksheet

/-- Replace one sheet of a workbook. -/
def updateWB (wb : Workbook) (name : String) (ws : Worksheet) : Workbook :=
  fun n => if n = name then ws else wb n

/-- Value of `df[c]` row-wise: the column's values, or a `KeyError` if `c`
is not a column label (pandas label lookup, first occurrence). -/
def DF.getCol (df : DF) (c : Val) : Except String (List Val) :=
  if c ∈ df.cols then
    .ok (df.rows.map (fun r => r.getD (df.cols.indexOf c) Val.vnone))
  else
    .error "KeyError"

/-- `df[df[c] == v]`: keep the rows whose value in column `c` equals `v`;
`KeyError` if `c` is not a column. -/
def DF.filterEq (df : DF) (c : Val) (v : Val) : Except String DF :=
  if c ∈ df.cols then
    .ok ⟨df.cols, df.rows.filter (fun r => r.getD (df.cols.indexOf c) Val.vnone = v)⟩
  else
    .error "KeyError"

/-- Dict lookup `dfs[name]` on the imported-sheets mapping. -/
def lookupSheet (dfs : List (String × DF)) (name : String) : Except String DF :=
  match dfs.find? (fun p => p.1 = name) with
  | some p => .ok p.2
  | none => .error "KeyError"

/-- Python `int(v)` on a cell value: integers pass through, strings parse
as a base-10 integer (optional sign), anything else raises. -/
def pyInt : Val → Except String Int
  | .vint n => .ok n
  | .vstr s =>
      match s.trim.toInt? with
      | some n => .ok n
      | none => .error ("ValueError: invalid literal for int with base 10: " ++ s)
  | .vnone => .error "TypeError: int argument must be a string or a number, not NoneType"

/-- `list(map(int, vals))`: the whole list is cast eagerly; the first
non-coercible value raises before anything else runs. -/
def mapPyInt : List Val → Except String (List Int)
  | [] => .ok []
  | v :: vs =>
      match pyInt v with
      | .error e => .error e
      | .ok n =>
          match mapPyInt vs with
          | .error e => .error e
          | .ok ns => .ok (n :: ns)

/-- `seller_name.replace(' ', '_')`: each space character becomes an
underscore (Python `str.replace` with a single-space pattern). -/
def pyReplaceSpace (s : String) : String :=
  String.mk (s.data.map (fun c => if c = ' ' then '_' else c))

/-- `re.sub('[^A-Za-z0-9]+', '', s)`: delete every character outside
ASCII `A-Za-z0-9`. -/
def reSubNonAlnum (s : String) : String :=
  String.mk (s.data.filter Char.isAlphanum)

/-- The splitter's configuration fields (from `SpreadsheetSplitter.__init__`). -/
structure Config where
  input_sheet_names : List String
  output_folder : String
  id_column : Val
  filename_sheet : String
  filename_col : Val

/-- The mutable fields of a `SpreadsheetSplitter` that `split_sellers`
reads or writes, plus the trace of file saves performed so far. -/
structure SplitState where
  template : Workbook
  dfs : List (String × DF)
  contacts : DF
  files : List String
  writes : List (String × Workbook)

/-- `clean_spreadsheet` on one sheet: set every cell with row and column
in 1..50 to `None` (`iter_rows(min_row=1, min_col=1, max_row=50, max_col=50)`). -/
def cleanSheet (ws : Worksheet) : Worksheet :=
  fun r c => if 1 ≤ r ∧ r ≤ 50 ∧ 1 ≤ c ∧ c ≤ 50 then Val.vnone else ws r c

/-- `SpreadsheetSplitter.clean_spreadsheet`: clear the 50×50 window of each
tracked input sheet, in order. -/
def clean_spreadsheet (wb : Workbook) (names : List String) : Workbook :=
  names.foldl (fun w n => updateWB w n (cleanSheet (w n))) wb

/-- `fill_cols` on one sheet: write the column labels into row 1 and the
data rows starting at row 2, one value per column. Cells not written keep
their previous value. -/
def fillSheet (ws : Worksheet) (df : DF) : Worksheet :=
  fun r c =>
    if r = 1 ∧ 1 ≤ c ∧ c ≤ df.cols.length then
      df.cols.getD (c - 1) Val.vnone
    else if 2 ≤ r ∧ r - 2 < df.rows.length ∧ 1 ≤ c ∧ c ≤ df.cols.length then
      (df.rows.getD (r - 2) []).getD (c - 1) Val.vnone
    else
      ws r c

/-- `SpreadsheetSplitter.fill_cols`: for each tracked input sheet, look up
the merchant's filtered frame (`merchant_dfs[ws]`, a `KeyError` if absent)
and write its header row and data rows into that sheet. The template is
mutated in place, so a raise part-way keeps the sheets filled so far:
the result is the workbook at return or raise time, plus the error. -/
def fill_cols (wb : Workbook) (names : List String) (mdfs : List (String × DF)) :
    Workbook × Option String :=
  match names with
  | [] => (wb, none)
  | n :: rest =>
      match lookupSheet mdfs n with
      | .error e => (wb, some e)
      | .ok df => fill_cols (updateWB wb n (fillSheet (wb n) df)) rest mdfs

/-- `SpreadsheetSplitter.get_save_path`: take the first value of the
filename column in the merchant's filtered filename sheet
(`.iloc[0]`, an `IndexError` on an empty frame), replace spaces with
underscores, delete every non-alphanumeric character, and build
`<output_folder>/relatorio-<name>.xlsx`. -/
def get_save_path (cfg : Config) (mdfs : List (String × DF)) : Except String String :=
  match lookupSheet mdfs cfg.filename_sheet with
  | .error e => .error e
  | .ok fsheet =>
      match fsheet.getCol cfg.filename_col with
      | .error e => .error e
      | .ok vals =>
          match vals with
          | [] => .error "IndexError: single positional indexer is out-of-bounds"
          | v :: _ =>
              match v with
              | .vstr name =>
                  .ok (cfg.output_folder ++ "/relatorio-" ++
                       reSubNonAlnum (pyReplaceSpace name) ++ ".xlsx")
              | _ => .error "AttributeError: object has no attribute replace"

/-- One iteration of `split_sellers`' filtering: build `merchant_dfs` by
filtering every tracked input sheet to the rows whose id column equals the
merchant id (dict built in sheet order; the first missing sheet or missing
id column raises). -/
def buildMerchantDfs (dfs : List (String × DF)) (names : List String)
    (idCol : Val) (mid : Int) : Except String (List (String × DF)) :=
  match names with
  | [] => .ok []
  | n :: rest =>
      match lookupSheet dfs n with
      | .error e => .error e
      | .ok df =>
          match df.filterEq idCol (Val.vint mid) with
          | .error e => .error e
          | .ok fdf =>
              match buildMerchantDfs dfs rest idCol mid with
              | .error e => .error e
              | .ok tail => .ok ((n, fdf) :: tail)

/-- The body of `split_sellers`' loop over the merchant list: per merchant,
filter the sheets, clean the template, fill it, derive the save path, save
(recording the write and appending to `files`), and continue. A raise
stops the loop and returns the state at that point with the error. -/
def splitLoop (cfg : Config) (st : SplitState) :
    List Int → SplitState × Option String
  | [] => (st, none)
  | mid :: rest =>
      match buildMerchantDfs st.dfs cfg.input_sheet_names cfg.id_column mid with
      | .error e => (st, some e)
      | .ok mdfs =>
          let cleaned := clean_spreadsheet st.template cfg.input_sheet_names
          let filled := fill_cols cleaned cfg.input_sheet_names mdfs
          match filled.2 with
          | some e => ({ st with template := filled.1 }, some e)
          | none =>
              let st1 := { st with template := filled.1 }
              match get_save_path cfg mdfs with
              | .error e => (st1, some e)
              | .ok path =>
                  let st2 := { st1 with
                    files := st1.files ++ [path],
                    writes := st1.writes ++ [(path, filled.1)] }
                  splitLoop cfg st2 rest

/-- `SpreadsheetSplitter.split_sellers`: cast the whole contacts id column
to integers up front, then run the per-merchant loop. -/
def split_sellers (cfg : Config) (st : SplitState) : SplitState × Option String :=
  match st.contacts.getCol cfg.id_column with
  | .error e => (st, some e)
  | .ok vals =>
      match mapPyInt vals with
      | .error e => (st, some e)
      | .ok merchant_list => splitLoop cfg st merchant_list

/-- `SpreadsheetSplitter.get_contacts` applied to the imported sheets:
look up the `CONTATOS` sheet and rebuild it with its first row promoted to
the column headers (`contacts_df.iloc[0]` raises `IndexError` on an empty
frame). -/
def get_contacts (dfs : List (String × DF)) : Except String DF :=
  match lookupSheet dfs "CONTATOS" with
  | .error e => .error e
  | .ok cdf =>
      match cdf.rows with
      | [] => .error "IndexError: index 0 is out of bounds"
      | r :: rs => .ok ⟨r, rs⟩

/-!
## Mail side

`Mailman.send_email` composes a message in the desktop mail client and
sends it; the whole try-block (compose + send) is one fallible external
operation, abstracted as a parameter `attempt : Mail → Except String Unit`.
`send_email` returns the list of messages it attempted (always exactly the
one it was given) and the console lines it printed; it never raises.
`os.path.abspath` is abstracted as a parameter `abspath`.
-/

/-- The fields a `Mailman` sets on the composed message. -/
structure Mail where
  To : String
  subject : String
  body : String
  attachment : String
deriving DecidableEq, Repr

/-- `Mailman.send_email`: attempt to compose and send the message once;
any exception is caught and printed to the console. Returns (messages
attempted, console output). -/
def Mailman.send_email (attempt : Mail → Except String Unit) (m : Mail) :
    List Mail × List String :=
  match attempt m with
  | .ok _ => ([m], [])
  | .error e => ([m], ["Error ocurred while sending email: " ++ e])

/-- The loop body of `send_multiple_emails`: for each file at index `idx`,
build a `Mailman` with `emails[idx]`, the shared subject/body, and the
file's absolute path, and send. Returns (messages attempted, console
output) accumulated in order. -/
def sendLoop (attempt : Mail → Except String Unit) (abspath : String → String)
    (emails : List String) (subject body : String) :
    List String → Nat → List Mail × List String
  | [], _ => ([], [])
  | f :: fs, idx =>
      let m : Mail := ⟨emails.getD idx "", subject, body, abspath f⟩
      let r := Mailman.send_email attempt m
      let rest := sendLoop attempt abspath emails subject body fs (idx + 1)
      (r.1 ++ rest.1, r.2 ++ rest.2)

/-- `send_multiple_emails`: assert that the two lists have equal length
(an `AssertionError` before any send when they differ), then send one
message per file. Result: (messages attempted, console output, raised
exception if any). -/
def send_multiple_emails (attempt : Mail → Except String Unit)
    (abspath : String → String) (files emails : List String)
    (subject body : String) : List Mail × List String × Option String :=
  if files.length = emails.length then
    let r := sendLoop attempt abspath emails subject body files 0
    (r.1, r.2, none)
  else
    ([], [], some "AssertionError: Len of File List is not equal Len of Email List")

/-- `CONFIRMATION_KEYWORD = "send"`. -/
def CONFIRMATION_KEYWORD : String := "send"

/-- `confirm_send_email`, with the interactive `input()` passed in:
compare the typed line to the confirmation keyword. -/
def confirm_send_email (typed : String) : Bool :=
  typed == CONFIRMATION_KEYWORD

/-- The mail phase of `main`: send the emails only when the confirmation
gate passes, otherwise do nothing. -/
def main_mail_phase (attempt : Mail → Except String Unit)
    (abspath : String → String) (typed : String) (files emails : List String)
    (subject body : String) : List Mail × List String × Option String :=
  if confirm_send_email typed then
    send_multiple_emails attempt abspath files emails subject body
  else
    ([], [], none)

/-!
## Output filesystem and re-running

`template_file.save(path)` writes the current grid at `path`, overwriting
any existing file. A run's effect on the output folder is the replay, in
order, of its write trace.
-/

/-- The output filesystem: saved workbook grid per path, if any. -/
def FS : Type := String → Option Workbook

/-- Apply a list of file saves in order; a later save to the same path
overwrites an earlier one. -/
def applyWrites (ws : List (String × Workbook)) (fs : FS) : FS :=
  ws.foldl (fun f pw => fun p => if p = pw.1 then some pw.2 else f p) fs

/-- One full export run's effect on the output folder: run `split_sellers`
from the given initial state (the constructor re-loads the template from
the template file, so each run starts from the same state) and replay its
writes, whether or not the run raised part-way. -/
def run_export (cfg : Config) (st : SplitState) (fs : FS) : FS :=
  applyWrites (split_sellers cfg st).1.writes fs

/-!
## The concrete configuration of `main`
-/

/-- The configuration `main` passes to `SpreadsheetSplitter`. -/
def mainConfig : Config :=
  { input_sheet_names := ["GMS_AGG", "GMS_SKU"]
    output_folder := "output"
    id_column := Val.vstr "merchant_customer_id"
    filename_sheet := "GMS_AGG"
    filename_col := Val.vstr "seller_name" }

/-- An all-empty template workbook grid. -/
def emptyWB : Workbook := fun _ _ _ => Val.vnone

/-!
## Spec-side definition and concrete example data
-/

/-- Modelled from the spec: the File Namer's sanitization as the spec
words it, "sanitization strips whitespace (replaced with underscore) and
any non-alphanumeric character" — whitespace becomes underscore first,
then every non-alphanumeric character is removed. Compared against the
code's `reSubNonAlnum ∘ pyReplaceSpace`. -/
def specSanitize (s : String) : String :=
  String.mk ((s.data.map (fun c => if c.isWhitespace then '_' else c)).filter Char.isAlphanum)

/-- Input sheets holding one merchant: id 1, seller name "Acme Co.!". -/
def acmeAgg : DF :=
  ⟨[Val.vstr "merchant_customer_id", Val.vstr "seller_name"],
   [[Val.vint 1, Val.vstr "Acme Co.!"]]⟩

/-- Second input sheet for the same merchant. -/
def acmeSku : DF :=
  ⟨[Val.vstr "merchant_customer_id"], [[Val.vint 1]]⟩

/-- Imported input sheets with data for merchant 1. -/
def acmeSheets : List (String × DF) := [("GMS_AGG", acmeAgg), ("GMS_SKU", acmeSku)]

/-- Input sheets whose only rows belong to merchant 2. -/
def otherSheets : List (String × DF) :=
  [("GMS_AGG", ⟨[Val.vstr "merchant_customer_id", Val.vstr "seller_name"],
                [[Val.vint 2, Val.vstr "Other"]]⟩),
   ("GMS_SKU", ⟨[Val.vstr "merchant_customer_id"], [[Val.vint 2]]⟩)]

/-- A contacts table with a single contact row for merchant 1. -/
def contactsOne : DF :=
  ⟨[Val.vstr "email", Val.vstr "merchant_customer_id",
    Val.vstr "email_subject", Val.vstr "email_body"],
   [[Val.vstr "a@b.c", Val.vint 1, Val.vstr "s", Val.vstr "b"]]⟩

/-- A contacts table whose identifier cell is `None` (not int-coercible). -/
def contactsBadId : DF :=
  ⟨[Val.vstr "email", Val.vstr "merchant_customer_id",
    Val.vstr "email_subject", Val.vstr "email_body"],
   [[Val.vstr "a@b.c", Val.vnone, Val.vstr "s", Val.vstr "b"]]⟩

/-- Splitter state where merchant 1 has matching rows in every sheet. -/
def stMatch : SplitState :=
  { template := emptyWB, dfs := acmeSheets, contacts := contactsOne
    files := [], writes := [] }

/-- Splitter state where merchant 1 (the only contact) matches no rows. -/
def stNoMatch : SplitState :=
  { template := emptyWB, dfs := otherSheets, contacts := contactsOne
    files := [], writes := [] }

/-- Splitter state whose contacts id column holds a non-coercible value. -/
def stBadId : SplitState :=
  { template := emptyWB, dfs := acmeSheets, contacts := contactsBadId
    files := [], writes := [] }

/-- An imported-sheets mapping with a two-row `CONTATOS` sheet. -/
def contatosSheets : List (String × DF) :=
  [("CONTATOS", ⟨[Val.vstr "c0"], [[Val.vstr "email"], [Val.vstr "x@y"]]⟩)]

/-- A compose-and-send operation that always raises. -/
def alwaysFail : Mail → Except String Unit := fun _ => .error "boom"

/-- A compose-and-send operation that always succeeds. -/
def alwaysOk : Mail → Except String Unit := fun _ => .ok ()

/-- A placeholder `os.path.abspath`. -/
def absId : String → String := fun s => s

/-!
## Helper lemmas
-/

/-- Pointwise description of `clean_spreadsheet`: a cell changes (to `None`)
exactly when its sheet is tracked and its row and column lie in 1..50. -/
theorem clean_spreadsheet_apply (names : List String) (wb : Workbook)
    (sheet : String) (r c : Nat) :
    clean_spreadsheet wb names sheet r c =
      if sheet ∈ names ∧ 1 ≤ r ∧ r ≤ 50 ∧ 1 ≤ c ∧ c ≤ 50 then Val.vnone
      else wb sheet r c := by
  induction names generalizing wb with
  | nil => simp [clean_spreadsheet]
  | cons n rest ih =>
    have step : clean_spreadsheet wb (n :: rest) =
        clean_spreadsheet (updateWB wb n (cleanSheet (wb n))) rest := by
      simp [clean_spreadsheet]
    rw [step, ih]
    by_cases hw : 1 ≤ r ∧ r ≤ 50 ∧ 1 ≤ c ∧ c ≤ 50
    · by_cases hm : sheet ∈ rest
      · simp [hm, hw, List.mem_cons]
      · by_cases he : sheet = n
        · subst he
          simp [hm, hw, updateWB, cleanSheet, List.mem_cons]
        · simp [hm, he, hw, updateWB, List.mem_cons]
    · by_cases he : sheet = n
      · subst he
        simp [hw, updateWB, cleanSheet, List.mem_cons]
      · simp [hw, he, updateWB, List.mem_cons]

/-- `fill_cols` never touches a sheet outside the tracked list, whether or
not it raises part-way. -/
theorem fill_cols_frame (mdfs : List (String × DF)) (sheet : String) :
    ∀ (names : List String) (wb : Workbook), sheet ∉ names →
      (fill_cols wb names mdfs).1 sheet = wb sheet := by
  intro names
  induction names with
  | nil => intro wb _; rfl
  | cons n rest ih =>
    intro wb hs
    have h1 : sheet ≠ n := by
      intro h; exact hs (h ▸ List.mem_cons_self n rest)
    have h2 : sheet ∉ rest := fun h => hs (List.mem_cons_of_mem n h)
    show (match lookupSheet mdfs n with
      | .error e => (wb, some e)
      | .ok df => fill_cols (updateWB wb n (fillSheet (wb n) df)) rest mdfs).1 sheet = wb sheet
    cases hl : lookupSheet mdfs n with
    | error e => rfl
    | ok df =>
      simp only []
      rw [ih _ h2]
      simp [updateWB, h1]

/-- C3: `clean_spreadsheet` sets to `None` exactly the cells with row and
column in 1..50 of each tracked input sheet; every cell outside that
window — higher rows, higher columns, or untracked sheets — keeps its
previous value, so stale content beyond the window persists. -/
theorem c3_clean_window_exact (wb : Workbook) (names : List String)
    (sheet : String) (r c : Nat) :
    clean_spreadsheet wb names sheet r c =
      if sheet ∈ names ∧ 1 ≤ r ∧ r ≤ 50 ∧ 1 ≤ c ∧ c ≤ 50 then Val.vnone
      else wb sheet r c :=
  clean_spreadsheet_apply names wb sheet r c

/-- C10: a sheet not named in `input_sheet_names` is left unchanged both
by `clean_spreadsheet` and by the subsequent `fill_cols` pass over the
cleaned template. -/
theorem c10_untracked_sheet_unchanged (wb : Workbook) (names : List String)
    (mdfs : List (String × DF)) (sheet : String) (hs : sheet ∉ names) :
    clean_spreadsheet wb names sheet = wb sheet ∧
    (fill_cols (clean_spreadsheet wb names) names mdfs).1 sheet = wb sheet := by
  have hclean : clean_spreadsheet wb names sheet = wb sheet := by
    funext r c
    rw [clean_spreadsheet_apply]
    simp [hs]
  exact ⟨hclean, by rw [fill_cols_frame mdfs sheet names _ hs, hclean]⟩

/-- Witness for C10 at a concrete workbook: the untracked sheet "Pivot"
is unchanged by cleaning and filling the tracked sheet "GMS_AGG". -/
theorem c10_untracked_sheet_unchanged_witness :
    clean_spreadsheet emptyWB ["GMS_AGG"] "Pivot" = emptyWB "Pivot" ∧
    (fill_cols (clean_spreadsheet emptyWB ["GMS_AGG"]) ["GMS_AGG"]
      [("GMS_AGG", acmeAgg)]).1 "Pivot" = emptyWB "Pivot" :=
  c10_untracked_sheet_unchanged emptyWB ["GMS_AGG"] [("GMS_AGG", acmeAgg)] "Pivot"
    (by simp)

/-- C4: when the files and emails lists differ in length, the assertion in
`send_multiple_emails` raises before any message is composed or sent: the
attempted-message trace is empty and the assertion error is the result. -/
theorem c4_assert_before_any_send (attempt : Mail → Except String Unit)
    (abspath : String → String) (files emails : List String)
    (subject body : String) (h : files.length ≠ emails.length) :
    send_multiple_emails attempt abspath files emails subject body =
      ([], [], some "AssertionError: Len of File List is not equal Len of Email List") := by
  simp [send_multiple_emails, h]

/-- Witness for C4: one file and no email address. -/
theorem c4_assert_before_any_send_witness :
    send_multiple_emails alwaysOk absId ["f.xlsx"] [] "s" "b" =
      ([], [], some "AssertionError: Len of File List is not equal Len of Email List") :=
  c4_assert_before_any_send alwaysOk absId ["f.xlsx"] [] "s" "b" (by decide)

/-- C5: `confirm_send_email` returns `true` exactly on the literal input
"send"; on every other input (e.g. "Send", "", "yes") `main`'s mail phase
sends nothing. -/
theorem c5_confirmation_gate (attempt : Mail → Except String Unit)
    (abspath : String → String) (files emails : List String)
    (subject body : String) :
    (∀ typed, confirm_send_email typed = true ↔ typed = "send") ∧
    (∀ typed, typed ≠ "send" →
      main_mail_phase attempt abspath typed files emails subject body = ([], [], none)) ∧
    confirm_send_email "Send" = false ∧
    confirm_send_email "" = false ∧
    confirm_send_email "yes" = false := by
  refine ⟨?_, ?_, by decide, by decide, by decide⟩
  · intro typed
    simp [confirm_send_email, CONFIRMATION_KEYWORD]
  · intro typed ht
    simp [main_mail_phase, confirm_send_email, CONFIRMATION_KEYWORD, ht]

/-- Witness for C5: with input "Send" no mail is sent. -/
theorem c5_confirmation_gate_witness :
    main_mail_phase alwaysOk absId "Send" ["f.xlsx"] ["a@b.c"] "s" "b" = ([], [], none) :=
  (c5_confirmation_gate alwaysOk absId ["f.xlsx"] ["a@b.c"] "s" "b").2.1 "Send" (by decide)

/-- C8: `get_contacts` promotes the first row of the `CONTATOS` sheet's
table to the column headers and keeps the remaining rows, in order, as the
data rows; an empty table raises an `IndexError`. -/
theorem c8_get_contacts_promotes_first_row (dfs : List (String × DF)) (cdf : DF)
    (h : lookupSheet dfs "CONTATOS" = .ok cdf) :
    get_contacts dfs =
      if cdf.rows.isEmpty then .error "IndexError: index 0 is out of bounds"
      else .ok ⟨cdf.rows.headD [], cdf.rows.tail⟩ := by
  unfold get_contacts
  rw [h]
  obtain ⟨cs, rws⟩ := cdf
  cases rws with
  | nil => rfl
  | cons r rs => rfl

/-- Witness for C8 at a concrete two-row `CONTATOS` sheet. -/
theorem c8_get_contacts_promotes_first_row_witness :
    get_contacts contatosSheets =
      .ok ⟨[Val.vstr "email"], [[Val.vstr "x@y"]]⟩ :=
  c8_get_contacts_promotes_first_row contatosSheets
    ⟨[Val.vstr "c0"], [[Val.vstr "email"], [Val.vstr "x@y"]]⟩ rfl

/-- C9: the integer cast of the whole contacts identifier column happens
before the merchant loop: if any identifier is not int-coercible,
`split_sellers` raises with the splitter state exactly as it was — no
sheet cleaned or filled, nothing saved, the files list unchanged. -/
theorem c9_cast_fails_before_loop (cfg : Config) (st : SplitState)
    (ids : List Val) (e : String)
    (hcol : st.contacts.getCol cfg.id_column = .ok ids)
    (herr : mapPyInt ids = .error e) :
    split_sellers cfg st = (st, some e) := by
  simp only [split_sellers, hcol, herr]

/-- Witness for C9: a contacts table whose identifier cell is `None`. -/
theorem c9_cast_fails_before_loop_witness :
    split_sellers mainConfig stBadId =
      (stBadId, some "TypeError: int argument must be a string or a number, not NoneType") :=
  c9_cast_fails_before_loop mainConfig stBadId [Val.vnone]
    "TypeError: int argument must be a string or a number, not NoneType" rfl rfl

/-- `Mailman.send_email` attempts its message exactly once, whether the
compose-and-send operation succeeds or raises. -/
theorem send_email_attempts_once (attempt : Mail → Except String Unit) (m : Mail) :
    (Mailman.send_email attempt m).1 = [m] := by
  unfold Mailman.send_email
  cases attempt m <;> rfl

/-- The send loop attempts exactly one message per file, whatever the
compose-and-send operation does. -/
theorem sendLoop_trace_length (attempt : Mail → Except String Unit)
    (abspath : String → String) (emails : List String) (subject body : String) :
    ∀ (files : List String) (idx : Nat),
      (sendLoop attempt abspath emails subject body files idx).1.length = files.length := by
  intro files
  induction files with
  | nil => intro idx; rfl
  | cons f fs ih =>
    intro idx
    show ((Mailman.send_email attempt _).1 ++
      (sendLoop attempt abspath emails subject body fs (idx + 1)).1).length = fs.length + 1
    rw [List.length_append, ih, send_email_attempts_once]
    simp [Nat.add_comm]

/-- C6: an exception from composing or sending a single message is caught
inside `Mailman.send_email` and turned into one console line; the loop in
`send_multiple_emails` then continues: with equal-length lists it never
propagates an exception, and it attempts every file exactly once (no
retry), whatever the mail client does. -/
theorem c6_send_failure_contained (attempt : Mail → Except String Unit)
    (abspath : String → String) (m : Mail) (e : String)
    (files emails : List String) (subject body : String)
    (hm : attempt m = .error e)
    (hlen : files.length = emails.length) :
    Mailman.send_email attempt m = ([m], ["Error ocurred while sending email: " ++ e]) ∧
    (send_multiple_emails attempt abspath files emails subject body).2.2 = none ∧
    (send_multiple_emails attempt abspath files emails subject body).1.length
      = files.length := by
  refine ⟨by simp [Mailman.send_email, hm], ?_, ?_⟩
  · simp [send_multiple_emails, hlen]
  · simp [send_multiple_emails, hlen, sendLoop_trace_length]

/-- Witness for C6: a mail client that always raises; both messages are
still attempted and nothing propagates. -/
theorem c6_send_failure_contained_witness :
    Mailman.send_email alwaysFail ⟨"a@b.c", "s", "b", "f.xlsx"⟩ =
      ([⟨"a@b.c", "s", "b", "f.xlsx"⟩], ["Error ocurred while sending email: boom"]) ∧
    (send_multiple_emails alwaysFail absId ["f.xlsx", "g.xlsx"] ["a@b.c", "d@e.f"] "s" "b").2.2
      = none ∧
    (send_multiple_emails alwaysFail absId ["f.xlsx", "g.xlsx"] ["a@b.c", "d@e.f"] "s" "b").1.length
      = (["f.xlsx", "g.xlsx"] : List String).length :=
  c6_send_failure_contained alwaysFail absId ⟨"a@b.c", "s", "b", "f.xlsx"⟩ "boom"
    ["f.xlsx", "g.xlsx"] ["a@b.c", "d@e.f"] "s" "b" rfl rfl

/-- An alphanumeric character is not whitespace. -/
theorem alnum_not_whitespace (c : Char) (h : c.isAlphanum = true) :
    c.isWhitespace = false := by
  cases hw : c.isWhitespace
  · rfl
  · exfalso
    have hd : ((c = ' ' ∨ c = '\t') ∨ c = '\x0d') ∨ c = '\n' := by
      simpa [Char.isWhitespace] using hw
    rcases hd with ((h1 | h1) | h1) | h1 <;> subst h1 <;> exact absurd h (by decide)

/-- Filtering to alphanumerics is unchanged by a map that fixes
alphanumerics and keeps non-alphanumerics non-alphanumeric. -/
theorem filter_alnum_map_eq (f : Char → Char)
    (h1 : ∀ c, c.isAlphanum = true → f c = c)
    (h2 : ∀ c, c.isAlphanum = false → (f c).isAlphanum = false) :
    ∀ l : List Char, (l.map f).filter Char.isAlphanum = l.filter Char.isAlphanum := by
  intro l
  induction l with
  | nil => rfl
  | cons c cs ih =>
    cases ha : c.isAlphanum with
    | true => simp [List.filter_cons, h1 c ha, ha, ih]
    | false => simp [List.filter_cons, h2 c ha, ha, ih]

/-- The code's sanitization (`.replace(' ', '_')` then
`re.sub('[^A-Za-z0-9]+', '')`) agrees with the spec's description
(whitespace to underscore, then drop non-alphanumerics): both equal a
plain filter to alphanumeric characters. -/
theorem sanitize_code_eq_spec (s : String) :
    reSubNonAlnum (pyReplaceSpace s) = specSanitize s := by
  unfold reSubNonAlnum pyReplaceSpace specSanitize
  congr 1
  rw [filter_alnum_map_eq _ ?h1 ?h2, filter_alnum_map_eq _ ?h3 ?h4]
  case h1 =>
    intro c hc
    have : c ≠ ' ' := fun h => absurd (h ▸ hc) (by decide)
    simp [this]
  case h2 =>
    intro c hc
    by_cases h : c = ' '
    · subst h; decide
    · simpa [h] using hc
  case h3 =>
    intro c hc
    simp [alnum_not_whitespace c hc]
  case h4 =>
    intro c hc
    by_cases h : c.isWhitespace
    · simp [h]
    · simpa [h] using hc

/-- C2: `get_save_path` returns
`<output_folder>/relatorio-<sanitized>.xlsx` where the sanitized name is
the seller name with whitespace turned into underscores and then every
non-alphanumeric character removed (as the spec words it); in particular
seller name "Acme Co.!" under `main`'s configuration yields
`output/relatorio-AcmeCo.xlsx`. -/
theorem c2_save_path_sanitized (cfg : Config) (mdfs : List (String × DF))
    (fsheet : DF) (name : String) (rest : List Val)
    (hls : lookupSheet mdfs cfg.filename_sheet = .ok fsheet)
    (hcol : fsheet.getCol cfg.filename_col = .ok (Val.vstr name :: rest)) :
    get_save_path cfg mdfs =
      .ok (cfg.output_folder ++ "/relatorio-" ++ specSanitize name ++ ".xlsx") ∧
    get_save_path mainConfig acmeSheets = .ok "output/relatorio-AcmeCo.xlsx" := by
  constructor
  · simp only [get_save_path, hls, hcol]
    rw [sanitize_code_eq_spec]
  · rfl

/-- Witness for C2: the "Acme Co.!" merchant sheets under `main`'s
configuration. -/
theorem c2_save_path_sanitized_witness :
    get_save_path mainConfig acmeSheets =
      .ok (mainConfig.output_folder ++ "/relatorio-" ++ specSanitize "Acme Co.!" ++ ".xlsx") ∧
    get_save_path mainConfig acmeSheets = .ok "output/relatorio-AcmeCo.xlsx" :=
  c2_save_path_sanitized mainConfig acmeSheets acmeAgg "Acme Co.!" [] rfl rfl

/-- A completed (no-raise) merchant loop appends exactly one saved file
per merchant identifier in the list. -/
theorem splitLoop_files_length (cfg : Config) :
    ∀ (ml : List Int) (st st' : SplitState),
      splitLoop cfg st ml = (st', none) →
      st'.files.length = st.files.length + ml.length := by
  intro ml
  induction ml with
  | nil =>
    intro st st' h
    simp only [splitLoop] at h
    obtain ⟨h1, -⟩ := Prod.mk.injEq .. ▸ h
    simp [← h1]
  | cons mid rest ih =>
    intro st st' h
    simp only [splitLoop] at h
    split at h
    · simp at h
    · split at h
      · simp at h
      · split at h
        · simp at h
        · have := ih _ _ h
          simp only [this, List.length_append, List.length_cons]
          simp
          omega

/-- C1 (amended): when `split_sellers` completes without raising, the
files list grows by exactly one output file per merchant identifier in
the contacts table, in order. -/
theorem c1_one_file_per_merchant (cfg : Config) (st st' : SplitState)
    (ids : List Val) (ml : List Int)
    (hcol : st.contacts.getCol cfg.id_column = .ok ids)
    (hml : mapPyInt ids = .ok ml)
    (hrun : split_sellers cfg st = (st', none)) :
    st'.files.length = st.files.length + ml.length := by
  simp only [split_sellers, hcol, hml] at hrun
  exact splitLoop_files_length cfg ml st st' hrun

/-- Witness for C1: one contact whose merchant id matches one row in each
input sheet; exactly one file is produced. -/
theorem c1_one_file_per_merchant_witness :
    (split_sellers mainConfig stMatch).1.files.length =
      stMatch.files.length + [(1 : Int)].length :=
  c1_one_file_per_merchant mainConfig stMatch (split_sellers mainConfig stMatch).1
    [Val.vint 1] [1] rfl rfl rfl

/-- Counterexample to C1 as stated: merchant 1 is present in the contacts
table but matches no input rows; `split_sellers` raises an `IndexError`
from `get_save_path` (`.iloc[0]` on the empty filtered filename sheet) and
produces no output file at all for that merchant, instead of an empty one. -/
theorem c1_no_match_raises :
    (split_sellers mainConfig stNoMatch).2 =
      some "IndexError: single positional indexer is out-of-bounds" ∧
    (split_sellers mainConfig stNoMatch).1.files = [] :=
  ⟨rfl, rfl⟩

/-- Pointwise value of replaying a list of file saves. -/
theorem applyWrites_apply (ws : List (String × Workbook)) :
    ∀ (fs : FS) (p : String),
      applyWrites ws fs p =
        ws.foldl (fun a pw => if p = pw.1 then some pw.2 else a) (fs p) := by
  induction ws with
  | nil => intro fs p; rfl
  | cons pw rest ih =>
    intro fs p
    show applyWrites rest (fun q => if q = pw.1 then some pw.2 else fs q) p = _
    rw [ih]
    simp [List.foldl_cons]

/-- Replaying a list of saves at one path either leaves the initial value
alone or yields a value independent of it. -/
theorem foldl_write_cases (p : String) :
    ∀ (ws : List (String × Workbook)) (a : Option Workbook),
      ws.foldl (fun a pw => if p = pw.1 then some pw.2 else a) a = a ∨
      ∀ b, ws.foldl (fun a pw => if p = pw.1 then some pw.2 else a) a =
           ws.foldl (fun a pw => if p = pw.1 then some pw.2 else a) b := by
  intro ws
  induction ws with
  | nil => intro a; left; rfl
  | cons pw rest ih =>
    intro a
    by_cases h : p = pw.1
    · right
      intro b
      simp [List.foldl_cons, h]
    · rcases ih a with h1 | h1
      · left
        simpa [List.foldl_cons, h] using h1
      · right
        intro b
        simp only [List.foldl_cons, if_neg h]
        exact h1 b

/-- C7: re-running the full export from the same template file and input
data leaves the output folder exactly as the first run left it: the same
write trace replays deterministically, overwriting each output path with
identical content. -/
theorem c7_rerun_export_idempotent (cfg : Config) (st : SplitState) (fs : FS) :
    run_export cfg st (run_export cfg st fs) = run_export cfg st fs := by
  funext p
  unfold run_export
  simp only [applyWrites_apply]
  rcases foldl_write_cases p (split_sellers cfg st).1.writes (fs p) with h | h
  · rw [h]; exact h
  · exact (h _).symm
